import Mathlib

/-!
Verification of the scheduling-and-relay core of the discord-auto-bumper
repository (src/index.js, later revision; the earlier revision in the same
file agrees on all modelled logic except where noted in doc comments).

The embedding is shallow: JavaScript numbers are modelled as `Option ℚ`
(`none` is `NaN`), JS truthiness is explicit, network responses and the
gateway-event trace are inputs, and the process-wide mutable state
(config store, timer-handle map, command cache) is passed explicitly.
-/

namespace AutoBumper

/-! ## JavaScript value primitives -/

/-- A JavaScript number: `none` models `NaN`, `some q` a (rational) numeric
value. All numbers the program manipulates are exact, so ℚ is adequate. -/
abbrev JsNum := Option ℚ

/-- JS truthiness of a number: `NaN` and `0` are falsy. -/
def jsTruthyNum (x : JsNum) : Bool :=
  match x with
  | none => false
  | some q => decide (q ≠ 0)

/-- The JS `||` operator restricted to numbers: returns the left operand when
truthy, the right one otherwise (used in `Number(intervalMinutes) || Number(DEFAULT_INTERVAL_MINUTES)`). -/
def jsOrNum (a b : JsNum) : JsNum :=
  if jsTruthyNum a then a else b

/-- `Math.max(1, x)` on JS numbers: `Math.max` with a `NaN` argument is `NaN`. -/
def jsMax1 (x : JsNum) : JsNum :=
  match x with
  | none => none
  | some q => some (max 1 q)

/-- Multiplication of a JS number by a literal, with `NaN` propagation
(models `minutes * 60 * 1000`). -/
def jsMulNat (x : JsNum) (n : ℕ) : JsNum :=
  match x with
  | none => none
  | some q => some (q * n)

/-- JS truthiness of a string: the empty string is falsy. -/
def jsTruthyStr (s : String) : Bool := decide (s ≠ "")

/-- The JS `||` operator on an optional string versus a fallback: an absent or
empty string falls through (models `a?.b || c`). -/
def jsOrStr (a : Option String) (b : String) : String :=
  match a with
  | some s => if jsTruthyStr s then s else b
  | none => b

/-! ## Association-list maps

The process-wide mutable maps (`config`, `intervals`, `bumpCommandCache`)
are modelled as association lists with last-write-wins update. -/

/-- Look up a key in an association list. -/
def lookupA {α β : Type} [DecidableEq α] : List (α × β) → α → Option β
  | [], _ => none
  | (k', v) :: t, k => if k' = k then some v else lookupA t k

/-- Remove every binding of a key from an association list. -/
def eraseA {α β : Type} [DecidableEq α] : List (α × β) → α → List (α × β)
  | [], _ => []
  | p :: t, k => if p.1 = k then eraseA t k else p :: eraseA t k

/-- Overwrite the binding of a key in an association list. -/
def setA {α β : Type} [DecidableEq α] (l : List (α × β)) (k : α) (v : β) : List (α × β) :=
  (k, v) :: eraseA l k

theorem lookupA_eraseA_self {α β : Type} [DecidableEq α] (l : List (α × β)) (k : α) :
    lookupA (eraseA l k) k = none := by
  induction l with
  | nil => rfl
  | cons p t ih =>
    by_cases h : p.1 = k <;> simp [eraseA, lookupA, h, ih]

theorem lookupA_eraseA_ne {α β : Type} [DecidableEq α] (l : List (α × β)) (k k' : α)
    (h : k ≠ k') : lookupA (eraseA l k) k' = lookupA l k' := by
  induction l with
  | nil => rfl
  | cons p t ih =>
    by_cases hp : p.1 = k
    · have hp' : p.1 ≠ k' := by simpa [hp] using h
      simp [eraseA, lookupA, hp, hp', ih, h]
    · by_cases hk' : p.1 = k'
      · have hkk : k' ≠ k := fun e => hp (by rw [hk', e])
        simp [eraseA, lookupA, hp, hk', hkk, ih]
      · simp [eraseA, lookupA, hp, hk', ih]

theorem lookupA_setA_self {α β : Type} [DecidableEq α] (l : List (α × β)) (k : α) (v : β) :
    lookupA (setA l k v) k = some v := by
  simp [setA, lookupA]

theorem lookupA_setA_ne {α β : Type} [DecidableEq α] (l : List (α × β)) (k k' : α) (v : β)
    (h : k ≠ k') : lookupA (setA l k v) k' = lookupA l k' := by
  simp [setA, lookupA, h, lookupA_eraseA_ne l k k' h]

/-! ## Case-insensitive substring matching

Models the regular expressions `/cooldown|please wait/i` (manual API path)
and JS `toLowerCase` comparison of command names. -/

/-- Whether the first list occurs as a leading segment of the second. -/
def leadsWith {α : Type} [DecidableEq α] : List α → List α → Bool
  | [], _ => true
  | _ :: _, [] => false
  | a :: p, b :: s => decide (a = b) && leadsWith p s

/-- Whether the first list occurs as a contiguous segment of the second. -/
def occursIn {α : Type} [DecidableEq α] (p : List α) : List α → Bool
  | [] => p.isEmpty
  | b :: s => leadsWith p (b :: s) || occursIn p s

/-- The characters of a string lowercased (JS `toLowerCase`; identical to
`Char.toLower` on the ASCII inputs involved here). -/
def lowerData (s : String) : List Char :=
  s.data.map Char.toLower

/-- Case-insensitive substring test on strings, as performed by a
case-insensitive regular expression made of literal alternatives. -/
def strOccursCI (pat s : String) : Bool :=
  occursIn (lowerData pat) (lowerData s)

/-! ## Data model -/

/-- An application-command descriptor as returned by the platform's
command-listing endpoints (the fields the relay payload uses). -/
structure Command where
  id : String
  type : ℕ
  name : String
  version : String
deriving DecidableEq, Repr

/-- A per-guild configuration entry. `channelId` truthiness is JS truthiness
(empty string is falsy). `intervalMinutes` is `none` when the field is absent
(`undefined`/`null`, so `??` falls through to the default), and `some v` when
present, where `v` is the `Number(...)` image of the stored value (`v = none`
meaning the stored value is non-numeric, i.e. `Number` gives `NaN`). -/
structure GuildConfig where
  channelId : String
  intervalMinutes : Option JsNum
  message : String
deriving DecidableEq, Repr

/-- The process-lifetime cache `bumpCommandCache`, keyed by guild id. -/
abbrev CommandCache := List (String × Command)

/-- The JS-visible fields of a thrown error object that the failure
classification reads: `err.status` (when a number), `err.message` (the empty
string models an absent or empty message) and `err.rawError?.message`. -/
structure JsError where
  status : Option ℕ
  message : String
  rawErrorMessage : Option String
deriving DecidableEq, Repr

/-! ## External command resolver (`fetchExternalBumpCommand`)

Later revision of src/index.js. `tryGet` first calls the REST helper; on a
thrown error it falls back to an unauthenticated fetch of the raw URL, and
returns `[]` when the original error had no truthy non-404 status. The
earlier revision differs only in the fallback (it swallows exactly
status-404 errors of the guild-scoped query, with no raw-URL retry); all
properties proved below hold of both. The network is an input: the
environment records what each query would produce. -/

/-- What the two layers of one `tryGet` call would produce: `restResult` is
the REST helper's outcome (`.error st` models a throw with `err.status = st`,
`none` when the thrown error carries no numeric status), `rawResult` is the
unauthenticated-fetch fallback (`some cs` models `res.ok` with JSON `cs`;
`none` models a non-ok response or a second throw). -/
structure TryGetEnv where
  restResult : Except (Option ℕ) (List Command)
  rawResult : Option (List Command)
deriving Repr

/-- One command-listing query with its two-layer fallback, from the later
revision: on a REST throw, use the raw fetch result if ok; otherwise rethrow
when the error has a truthy status other than 404, else return `[]`. -/
def tryGet (env : TryGetEnv) : Except (Option ℕ) (List Command) :=
  match env.restResult with
  | .ok cs => .ok cs
  | .error st =>
    match env.rawResult with
    | some cs => .ok cs
    | none =>
      match st with
      | some s => if s ≠ 0 ∧ s ≠ 404 then .error (some s) else .ok []
      | none => .ok []

/-- The network environment of one resolver call: what the guild-scoped and
the global command-listing queries would produce. -/
structure RestEnv where
  guildScoped : TryGetEnv
  globalScoped : TryGetEnv
deriving Repr

/-- Which command-listing scopes a resolver call actually contacted. -/
inductive Scope
  | guildScoped
  | globalScoped
deriving DecidableEq, Repr

/-- Failure modes of the resolver: a rethrown REST error, or the
`Command ... not found for application ...` error (whose `status` is 404 in
the later revision). -/
inductive FetchErr
  | restFailure (status : Option ℕ)
  | commandNotFound
deriving DecidableEq, Repr

/-- Case-insensitive command-name comparison:
`cmd?.name?.toLowerCase() === BUMP_COMMAND_NAME.toLowerCase()`. -/
def nameMatches (target : String) (c : Command) : Bool :=
  decide (lowerData c.name = lowerData target)

/-- Result of one resolver call: the returned descriptor or the thrown
error, the cache afterwards, and the scopes queried. -/
structure FetchOutcome where
  result : Except FetchErr Command
  cache : CommandCache
  queried : List Scope
deriving Repr

/-- Shared tail of the resolver: `commands.find(...)`, the not-found throw,
and the cache write (which happens only after a match was found). -/
def finishFetch (cache : CommandCache) (guildId target : String) (cs : List Command)
    (qs : List Scope) : FetchOutcome :=
  match cs.find? (nameMatches target) with
  | some c => { result := .ok c, cache := setA cache guildId c, queried := qs }
  | none => { result := .error .commandNotFound, cache := cache, queried := qs }

/-- The resolver `fetchExternalBumpCommand(guildId)`: cache check, then the
guild-scoped query, then — only when that produced an empty list
(`!commands?.length`) — the global query, then the case-insensitive find.
`target` is `BUMP_COMMAND_NAME`. (The leading `ensureClientReady()` await of
the later revision only delays the call and is not modelled; the
`BUMP_APPLICATION_ID` guard cannot fire since that variable has a non-empty
default.) -/
def fetchExternalBumpCommand (cache : CommandCache) (env : RestEnv)
    (guildId target : String) : FetchOutcome :=
  match lookupA cache guildId with
  | some c => { result := .ok c, cache := cache, queried := [] }
  | none =>
    match tryGet env.guildScoped with
    | .error st =>
        { result := .error (.restFailure st), cache := cache, queried := [.guildScoped] }
    | .ok cs0 =>
      if cs0.isEmpty then
        match tryGet env.globalScoped with
        | .error st =>
            { result := .error (.restFailure st), cache := cache
            , queried := [.guildScoped, .globalScoped] }
        | .ok cs1 => finishFetch cache guildId target cs1 [.guildScoped, .globalScoped]
      else
        finishFetch cache guildId target cs0 [.guildScoped]

/-- A sequence of resolver calls threading the cache — the only operations
the program ever performs on `bumpCommandCache`. -/
def runFetches (cache : CommandCache) (target : String) :
    List (RestEnv × String) → CommandCache
  | [] => cache
  | (env, g) :: rest =>
      runFetches (fetchExternalBumpCommand cache env g target).cache target rest

/-! ## Gateway session readiness (later revision)

`markSessionReady` ignores null ids and resolves the single-resolution
`sessionReadyPromise` with its first non-null argument (the resolver is
cleared after use). `ensureGatewaySession` awaits client readiness, then
returns `latestSessionId`, else the first shard's current session id, else
awaits the promise. Since the promise only ever resolves with a non-null id,
the trailing `throw` is unreachable; an attempt whose environment never
produces a session id simply stays pending. -/

/-- The readiness environment of one `ensureGatewaySession` call: the
client-ready state, the mutable session fields at the time the call runs,
and the (ordered) arguments of all later `markSessionReady` invocations
(from the `ready` / `shard-ready` / `shard-resume` handlers). -/
structure GatewayEnv where
  isReady : Bool
  readyFires : Bool
  latestSessionId : Option String
  shardSessionId : Option String
  sessionEvents : List (Option String)
deriving Repr

/-- Outcome of `ensureGatewaySession`: a session id, or an await that never
completes within the given environment. -/
inductive GatewayResult
  | ok (sessionId : String)
  | pending
deriving DecidableEq, Repr

/-- The later revision's `ensureGatewaySession`. The single-resolution
promise resolves with the first non-null `markSessionReady` argument. -/
def ensureGatewaySession (env : GatewayEnv) : GatewayResult :=
  if env.isReady || env.readyFires then
    match env.latestSessionId with
    | some sid => .ok sid
    | none =>
      match env.shardSessionId with
      | some sid => .ok sid
      | none =>
        match env.sessionEvents.findSome? (fun x => x) with
        | some sid => .ok sid
        | none => .pending
  else .pending

/-! ## Relay executor (`executeExternalBump`, later revision) -/

/-- Failure modes of one relay attempt. `sessionPending` models the gateway
await never completing; `commandResolution` wraps a resolver failure;
`interactionRejected` wraps an error thrown by the interaction POST. -/
inductive BumpErr
  | sessionPending
  | commandResolution (e : FetchErr)
  | interactionRejected (e : JsError)
deriving DecidableEq, Repr

/-- Result of one relay attempt: outcome, cache afterwards, and whether the
interaction endpoint (`POST /interactions`) was contacted. -/
structure RelayOutcome where
  result : Except BumpErr Unit
  cache : CommandCache
  contactedInteractions : Bool
deriving Repr

/-- The relay executor: resolve the gateway session, resolve the command
descriptor, then submit the synthetic interaction. `postResult` is what the
interaction POST would produce; `channelId` only flows into the posted
payload, which the model represents by that outcome. -/
def executeExternalBump (cache : CommandCache) (gw : GatewayEnv) (env : RestEnv)
    (postResult : Except JsError Unit) (guildId channelId target : String) : RelayOutcome :=
  match ensureGatewaySession gw with
  | .pending => { result := .error .sessionPending, cache := cache, contactedInteractions := false }
  | .ok _sid =>
    let f := fetchExternalBumpCommand cache env guildId target
    match f.result with
    | .error e =>
        { result := .error (.commandResolution e), cache := f.cache
        , contactedInteractions := false }
    | .ok _cmd =>
      match postResult with
      | .ok _ => { result := .ok (), cache := f.cache, contactedInteractions := true }
      | .error e =>
          { result := .error (.interactionRejected e), cache := f.cache
          , contactedInteractions := true }

/-! ## Auto-relay tick (`sendBump`) -/

/-- What one timer tick did: whether an error escaped `sendBump` (the
surrounding catch makes this always `none`), whether the relay executor was
invoked, and which error was caught and logged. -/
structure TickOutcome where
  threw : Option BumpErr
  executorCalled : Bool
  loggedError : Option BumpErr
deriving DecidableEq, Repr

/-- The body of `sendBump`'s `try` block: return early when the guild has no
truthy configured channel, otherwise run the relay (whose outcome is the
input `relayResult`) and propagate its error. `.ok b` reports whether the
executor was called. -/
def sendBumpBody (config : List (String × GuildConfig))
    (relayResult : Except BumpErr Unit) (guildId : String) : Except BumpErr Bool :=
  match lookupA config guildId with
  | none => .ok false
  | some entry =>
    if jsTruthyStr entry.channelId then
      match relayResult with
      | .ok _ => .ok true
      | .error e => .error e
    else .ok false

/-- The timer callback `sendBump(guildId)`: the whole body runs inside
`try { ... } catch (err) { console.error(...) }`, so every error is caught
and logged, never rethrown. -/
def sendBump (config : List (String × GuildConfig))
    (relayResult : Except BumpErr Unit) (guildId : String) : TickOutcome :=
  match sendBumpBody config relayResult guildId with
  | .ok called => { threw := none, executorCalled := called, loggedError := none }
  | .error e => { threw := none, executorCalled := true, loggedError := some e }

/-! ## Guild scheduler (`scheduleGuild` / timer state)

The timer machinery is modelled operationally: every `setInterval` call
creates a timer with a fresh numeric handle (`nextId`); `clearInterval`
removes a handle from the set of live timers; `intervals` is the
guild-to-handle map. `timers` records every timer ever created together
with its guild and the period passed to `setInterval`. -/

/-- `Number(config[guildId]?.intervalMinutes ?? DEFAULT_INTERVAL_MINUTES)`:
the `??` falls through to the default only when the entry or the field is
absent. `defaultMinutes` is the `Number(...)` image of
`DEFAULT_INTERVAL_MINUTES` (e.g. `some 120` for the built-in `"120"`). -/
def effectiveMinutes (entry : Option GuildConfig) (defaultMinutes : JsNum) : JsNum :=
  match entry with
  | none => defaultMinutes
  | some c =>
    match c.intervalMinutes with
    | none => defaultMinutes
    | some v => v

/-- `const ms = Math.max(1, minutes) * 60 * 1000`. -/
def scheduleMs (entry : Option GuildConfig) (defaultMinutes : JsNum) : JsNum :=
  jsMulNat (jsMulNat (jsMax1 (effectiveMinutes entry defaultMinutes)) 60) 1000

/-- A timer created by `setInterval`: its handle, the guild whose tick it
runs, and the millisecond period passed to `setInterval`. -/
structure TimerRec where
  tid : ℕ
  guild : String
  periodMs : JsNum
deriving DecidableEq, Repr

/-- The process-wide scheduling state: the `config` store, the `intervals`
handle map, every timer ever created, the set of live handles, and the next
fresh handle. -/
structure SchedState where
  config : List (String × GuildConfig)
  intervals : List (String × ℕ)
  timers : List TimerRec
  live : List ℕ
  nextId : ℕ
deriving Repr

/-- The state at process start: nothing configured, no timers. -/
def initialState : SchedState :=
  { config := [], intervals := [], timers := [], live := [], nextId := 0 }

/-- `clearInterval(h)`: the timer with handle `h` stops being live. -/
def clearIntervalOp (st : SchedState) (h : ℕ) : SchedState :=
  { st with live := st.live.filter (fun id => decide (id ≠ h)) }

/-- `scheduleGuild(guildId)`: cancel the stored handle if any, compute the
period from the config store, install a fresh repeating timer and store its
handle. -/
def scheduleGuild (defaultMinutes : JsNum) (st : SchedState) (guildId : String) : SchedState :=
  let st1 :=
    match lookupA st.intervals guildId with
    | some h => clearIntervalOp st h
    | none => st
  let ms := scheduleMs (lookupA st1.config guildId) defaultMinutes
  { st1 with
    intervals := setA st1.intervals guildId st1.nextId
    timers := ⟨st1.nextId, guildId, ms⟩ :: st1.timers
    live := st1.nextId :: st1.live
    nextId := st1.nextId + 1 }

/-- The `POST /api/remove` handler body (after validation): delete the
guild's config entry, clear its stored timer handle, delete the handle. -/
def removeGuild (st : SchedState) (guildId : String) : SchedState :=
  let st1 := { st with config := eraseA st.config guildId }
  let st2 :=
    match lookupA st1.intervals guildId with
    | some h => clearIntervalOp st1 h
    | none => st1
  { st2 with intervals := eraseA st2.intervals guildId }

/-- The relevant fields of a `POST /api/save` request body:
`intervalMinutes` is the `Number(...)` image of the submitted value
(`none` = non-numeric), `message` is `none` when absent. -/
structure SaveBody where
  channelId : String
  intervalMinutes : JsNum
  message : Option String
deriving DecidableEq, Repr

/-- The config entry the save handler stores:
`intervalMinutes: Number(intervalMinutes) || Number(DEFAULT_INTERVAL_MINUTES)`
and `message: (message && String(message).slice(0, 2000)) || "Bumped! 🚀"`
(we model `slice(0, 2000)` with `String.take`, exact on these inputs). -/
def savedConfig (body : SaveBody) (defaultMinutes : JsNum) : GuildConfig :=
  { channelId := body.channelId
  , intervalMinutes := some (jsOrNum body.intervalMinutes defaultMinutes)
  , message := jsOrStr (body.message.map (fun s => s.take 2000)) "Bumped! 🚀" }

/-- The `POST /api/save` handler body (after validation and, in the later
revision, channel resolution): overwrite the config entry, persist, re-arm
the guild's timer. -/
def saveGuild (defaultMinutes : JsNum) (st : SchedState) (guildId : String)
    (body : SaveBody) : SchedState :=
  scheduleGuild defaultMinutes
    { st with config := setA st.config guildId (savedConfig body defaultMinutes) } guildId

/-- The operations through which the program mutates the scheduling state. -/
inductive SchedOp
  | save (guildId : String) (body : SaveBody)
  | remove (guildId : String)
  | schedule (guildId : String)

/-- Apply one operation. -/
def stepOp (defaultMinutes : JsNum) (st : SchedState) : SchedOp → SchedState
  | .save g b => saveGuild defaultMinutes st g b
  | .remove g => removeGuild st g
  | .schedule g => scheduleGuild defaultMinutes st g

/-- Apply a sequence of operations. -/
def runOps (defaultMinutes : JsNum) (st : SchedState) : List SchedOp → SchedState
  | [] => st
  | op :: ops => runOps defaultMinutes (stepOp defaultMinutes st op) ops

/-- The guild whose tick a given timer handle runs. -/
def ownerOf : List TimerRec → ℕ → Option String
  | [], _ => none
  | t :: ts, id => if t.tid = id then some t.guild else ownerOf ts id

/-- The live timer handles belonging to a guild. -/
def liveTimersFor (st : SchedState) (guildId : String) : List ℕ :=
  st.live.filter (fun id => decide (ownerOf st.timers id = some guildId))

/-- Timer `id` can fire a scheduled relay for `guildId`: it is live and owns
that guild's tick. -/
def canFire (st : SchedState) (id : ℕ) (guildId : String) : Prop :=
  id ∈ st.live ∧ ownerOf st.timers id = some guildId

instance (st : SchedState) (id : ℕ) (g : String) : Decidable (canFire st id g) := by
  unfold canFire; infer_instance

/-! ## Manual-trigger API (`POST /api/bump`, later revision) -/

/-- `err?.rawError?.message || err?.message || ""`. -/
def rawMessageOf (e : JsError) : String :=
  jsOrStr e.rawErrorMessage (jsOrStr (some e.message) "")

/-- `const isCooldown = /cooldown|please wait/i.test(rawMessage)` — the
manual API path's entire cooldown test (the earlier revision tests only
`/cooldown/i`; neither consults `err.status`). -/
def apiBumpIsCooldown (e : JsError) : Bool :=
  strOccursCI "cooldown" (rawMessageOf e) || strOccursCI "please wait" (rawMessageOf e)

/-- The HTTP status and the `ok` / `cooldown` fields of the JSON body the
`/api/bump` catch branch sends. -/
structure ApiBumpFailure where
  httpStatus : ℕ
  ok : Bool
  cooldown : Bool
deriving DecidableEq, Repr

/-- The catch branch of `POST /api/bump`:
`res.status(isCooldown ? 200 : 500).json({ ok: false, cooldown: isCooldown, ... })`. -/
def apiBumpFailure (e : JsError) : ApiBumpFailure :=
  let isCooldown := apiBumpIsCooldown e
  { httpStatus := if isCooldown then 200 else 500
  , ok := false
  , cooldown := isCooldown }

/-- The relevant fields of a `POST /api/bump` request body. -/
structure BumpRequestBody where
  guildId : Option String
  channelId : Option String
deriving DecidableEq, Repr

/-- The possible responses of the `POST /api/bump` handler. -/
inductive ApiBumpResp
  | badRequest (httpStatus : ℕ) (error : String)
  | okResp
  | failResp (r : ApiBumpFailure)
deriving DecidableEq, Repr

/-- `const effectiveChannelId = channelId || config[guildId]?.channelId`. -/
def effectiveChannelId (config : List (String × GuildConfig))
    (body : BumpRequestBody) : String :=
  jsOrStr body.channelId
    (jsOrStr ((lookupA config (body.guildId.getD "")).map GuildConfig.channelId) "")

/-- The `POST /api/bump` handler (later revision): validation, then the
relay attempt (whose outcome is the input `relayResult`), with the catch
branch classifying failures. -/
def postApiBump (config : List (String × GuildConfig)) (body : BumpRequestBody)
    (relayResult : Except JsError Unit) : ApiBumpResp :=
  if jsTruthyStr (body.guildId.getD "") then
    if jsTruthyStr (effectiveChannelId config body) then
      match relayResult with
      | .ok _ => .okResp
      | .error e => .failResp (apiBumpFailure e)
    else .badRequest 400 "No channel provided or configured for this guild."
  else .badRequest 400 "guildId required"

/-! ## Scheduler invariant -/

/-- The live timers cancelled-then-kept by one `scheduleGuild`/`removeGuild`
call: the stored handle of the guild, if any, is cleared. -/
def liveAfterClear (st : SchedState) (guildId : String) : List ℕ :=
  match lookupA st.intervals guildId with
  | some h => st.live.filter (fun id => decide (id ≠ h))
  | none => st.live

theorem scheduleGuild_eq (d : JsNum) (st : SchedState) (g : String) :
    scheduleGuild d st g =
      { config := st.config
      , intervals := setA st.intervals g st.nextId
      , timers := ⟨st.nextId, g, scheduleMs (lookupA st.config g) d⟩ :: st.timers
      , live := st.nextId :: liveAfterClear st g
      , nextId := st.nextId + 1 } := by
  unfold scheduleGuild clearIntervalOp liveAfterClear
  cases lookupA st.intervals g <;> rfl

theorem removeGuild_eq (st : SchedState) (g : String) :
    removeGuild st g =
      { config := eraseA st.config g
      , intervals := eraseA st.intervals g
      , timers := st.timers
      , live := liveAfterClear st g
      , nextId := st.nextId } := by
  unfold removeGuild clearIntervalOp liveAfterClear
  cases hl : lookupA st.intervals g <;> simp [hl]

theorem liveAfterClear_subset (st : SchedState) (g : String) {id : ℕ}
    (h : id ∈ liveAfterClear st g) : id ∈ st.live := by
  unfold liveAfterClear at h
  cases hl : lookupA st.intervals g <;> rw [hl] at h
  · exact h
  · exact List.mem_of_mem_filter h

theorem liveAfterClear_nodup {st : SchedState} (h : st.live.Nodup) (g : String) :
    (liveAfterClear st g).Nodup := by
  unfold liveAfterClear
  cases lookupA st.intervals g
  · exact h
  · exact h.filter _

theorem not_mem_liveAfterClear {st : SchedState} {g : String} {h : ℕ}
    (hl : lookupA st.intervals g = some h) : h ∉ liveAfterClear st g := by
  unfold liveAfterClear
  rw [hl]
  simp

/-- The state invariant of the timer machinery: live handles are fresh,
created handles are fresh, no handle is live twice, and a live handle owned
by a guild is exactly the handle stored for that guild. -/
structure SchedInv (st : SchedState) : Prop where
  liveLt : ∀ id ∈ st.live, id < st.nextId
  timersLt : ∀ t ∈ st.timers, t.tid < st.nextId
  liveNodup : st.live.Nodup
  liveOwner : ∀ id ∈ st.live, ∀ g, ownerOf st.timers id = some g →
      lookupA st.intervals g = some id

theorem schedInv_initial : SchedInv initialState := by
  refine ⟨?_, ?_, ?_, ?_⟩ <;> simp [initialState]

theorem schedInv_config_set {st : SchedState} (hinv : SchedInv st) (g : String)
    (c : GuildConfig) : SchedInv { st with config := setA st.config g c } :=
  ⟨hinv.liveLt, hinv.timersLt, hinv.liveNodup, hinv.liveOwner⟩

theorem schedInv_schedule (d : JsNum) {st : SchedState} (hinv : SchedInv st)
    (g : String) : SchedInv (scheduleGuild d st g) := by
  rw [scheduleGuild_eq]
  constructor
  · intro id hid
    rcases List.mem_cons.mp hid with rfl | hmem
    · exact Nat.lt_succ_self _
    · exact Nat.lt_succ_of_lt (hinv.liveLt id (liveAfterClear_subset st g hmem))
  · intro t ht
    rcases List.mem_cons.mp ht with rfl | hmem
    · exact Nat.lt_succ_self _
    · exact Nat.lt_succ_of_lt (hinv.timersLt t hmem)
  · refine List.nodup_cons.mpr ⟨?_, liveAfterClear_nodup hinv.liveNodup g⟩
    intro hmem
    exact absurd (hinv.liveLt _ (liveAfterClear_subset st g hmem)) (Nat.lt_irrefl _)
  · intro id hid g' hown
    rcases List.mem_cons.mp hid with rfl | hmem
    · have hg : g = g' := by
        simpa [ownerOf] using hown
      subst hg
      exact lookupA_setA_self st.intervals g st.nextId
    · have hidlive : id ∈ st.live := liveAfterClear_subset st g hmem
      have hidlt : id < st.nextId := hinv.liveLt id hidlive
      have hne : st.nextId ≠ id := Nat.ne_of_gt hidlt
      have hown' : ownerOf st.timers id = some g' := by
        simpa [ownerOf, hne] using hown
      have hlk : lookupA st.intervals g' = some id := hinv.liveOwner id hidlive g' hown'
      by_cases hgg : g = g'
      · subst hgg
        exact absurd hmem (not_mem_liveAfterClear hlk)
      · rw [lookupA_setA_ne _ _ _ _ hgg]
        exact hlk

theorem schedInv_remove {st : SchedState} (hinv : SchedInv st) (g : String) :
    SchedInv (removeGuild st g) := by
  rw [removeGuild_eq]
  constructor
  · intro id hid
    exact hinv.liveLt id (liveAfterClear_subset st g hid)
  · exact hinv.timersLt
  · exact liveAfterClear_nodup hinv.liveNodup g
  · intro id hid g' hown
    have hidlive : id ∈ st.live := liveAfterClear_subset st g hid
    have hlk : lookupA st.intervals g' = some id := hinv.liveOwner id hidlive g' hown
    by_cases hgg : g = g'
    · subst hgg
      exact absurd hid (not_mem_liveAfterClear hlk)
    · rw [lookupA_eraseA_ne _ _ _ hgg]
      exact hlk

theorem schedInv_step (d : JsNum) {st : SchedState} (hinv : SchedInv st)
    (op : SchedOp) : SchedInv (stepOp d st op) := by
  cases op with
  | save g b => exact schedInv_schedule d (schedInv_config_set hinv g _) g
  | remove g => exact schedInv_remove hinv g
  | schedule g => exact schedInv_schedule d hinv g

theorem schedInv_runOps (d : JsNum) {st : SchedState} (hinv : SchedInv st) :
    ∀ ops : List SchedOp, SchedInv (runOps d st ops)
  | [] => hinv
  | op :: ops => schedInv_runOps d (schedInv_step d hinv op) ops

/-- A duplicate-free list all of whose elements are equal has at most one
element. -/
theorem nodup_all_eq_length_le_one {α : Type} {a : α} :
    ∀ l : List α, l.Nodup → (∀ x ∈ l, x = a) → l.length ≤ 1
  | [], _, _ => by simp
  | [_], _, _ => by simp
  | x :: y :: _, hnd, hall => by
    exfalso
    have hx : x = a := hall x (by simp)
    have hy : y = a := hall y (by simp)
    have hxy : x ≠ y := by
      intro e
      exact (List.nodup_cons.mp hnd).1 (e ▸ List.mem_cons_self y _)
    exact hxy (hx.trans hy.symm)

theorem liveTimersFor_length_le_one {st : SchedState} (hinv : SchedInv st)
    (g : String) : (liveTimersFor st g).length ≤ 1 := by
  cases hl : lookupA st.intervals g with
  | none =>
    have : liveTimersFor st g = [] := by
      refine List.filter_eq_nil_iff.mpr ?_
      intro id hid hp
      have hown : ownerOf st.timers id = some g := of_decide_eq_true hp
      have := hinv.liveOwner id hid g hown
      rw [hl] at this
      exact Option.noConfusion this
    simp [this]
  | some h =>
    have hall : ∀ id ∈ liveTimersFor st g, id = h := by
      intro id hid
      have hmem := List.mem_filter.mp hid
      have hown : ownerOf st.timers id = some g := of_decide_eq_true hmem.2
      have := hinv.liveOwner id hmem.1 g hown
      rw [hl] at this
      exact (Option.some.injEq _ _).mp this.symm
    exact @nodup_all_eq_length_le_one ℕ h _ (hinv.liveNodup.filter _) hall

/-! ## Freshness of timer handles -/

theorem dead_schedule (d : JsNum) {st : SchedState} {id : ℕ}
    (hdead : id ∉ st.live) (hlt : id < st.nextId) (g : String) :
    id ∉ (scheduleGuild d st g).live ∧ id < (scheduleGuild d st g).nextId := by
  rw [scheduleGuild_eq]
  constructor
  · intro hmem
    rcases List.mem_cons.mp hmem with rfl | hmem'
    · exact Nat.lt_irrefl _ hlt
    · exact hdead (liveAfterClear_subset st g hmem')
  · exact Nat.lt_succ_of_lt hlt

theorem dead_stepOp (d : JsNum) {st : SchedState} {id : ℕ}
    (hdead : id ∉ st.live) (hlt : id < st.nextId) (op : SchedOp) :
    id ∉ (stepOp d st op).live ∧ id < (stepOp d st op).nextId := by
  cases op with
  | save g b =>
    simp only [stepOp, saveGuild]
    exact @dead_schedule d { st with config := setA st.config g (savedConfig b d) } id hdead hlt g
  | schedule g =>
    simp only [stepOp]
    exact dead_schedule d hdead hlt g
  | remove g =>
    simp only [stepOp]
    rw [removeGuild_eq]
    exact ⟨fun hmem => hdead (liveAfterClear_subset st g hmem), hlt⟩

theorem dead_runOps (d : JsNum) {st : SchedState} {id : ℕ}
    (hdead : id ∉ st.live) (hlt : id < st.nextId) :
    ∀ ops : List SchedOp, id ∉ (runOps d st ops).live
  | [] => hdead
  | op :: ops =>
    dead_runOps d (dead_stepOp d hdead hlt op).1 (dead_stepOp d hdead hlt op).2 ops

/-! ## Period arithmetic -/

theorem scheduleMs_eq (entry : Option GuildConfig) (d : JsNum) :
    scheduleMs entry d = jsMulNat (jsMax1 (effectiveMinutes entry d)) 60000 := by
  unfold scheduleMs
  cases jsMax1 (effectiveMinutes entry d) with
  | none => rfl
  | some q =>
    simp [jsMulNat]
    norm_num [mul_assoc]

/-! ## Claims about the scheduler -/

/-- C1: after any sequence of scheduling operations every guild has at most
one live repeating timer, and immediately after a `scheduleGuild` call on
any reachable state — in particular after two consecutive calls for the same
guild — that guild has exactly one live timer, whose fresh handle is the one
stored in the timer-handle map: re-arming always cancels the previously
stored handle before installing and storing the new one. -/
theorem claim_C1_single_live_timer (d : JsNum) (ops : List SchedOp) (g : String) :
    (liveTimersFor (runOps d initialState ops) g).length ≤ 1 ∧
    (liveTimersFor (scheduleGuild d (runOps d initialState ops) g) g).length = 1 ∧
    lookupA (scheduleGuild d (runOps d initialState ops) g).intervals g =
      some (runOps d initialState ops).nextId := by
  have hinv := schedInv_runOps d schedInv_initial ops
  set st := runOps d initialState ops with hst
  refine ⟨liveTimersFor_length_le_one hinv g, ?_, ?_⟩
  · have hinv' := schedInv_schedule d hinv g
    have hle := liveTimersFor_length_le_one hinv' g
    have hmem : st.nextId ∈ liveTimersFor (scheduleGuild d st g) g := by
      rw [scheduleGuild_eq]
      unfold liveTimersFor
      refine List.mem_filter.mpr ⟨List.mem_cons_self _ _, ?_⟩
      simp [ownerOf]
    have hpos : 0 < (liveTimersFor (scheduleGuild d st g) g).length :=
      List.length_pos.mpr (List.ne_nil_of_mem hmem)
    omega
  · rw [scheduleGuild_eq]
    exact lookupA_setA_self st.intervals g st.nextId

/-- C7: removing a guild deletes its config entry, deletes its stored timer
handle, leaves it with no live timer, and a timer that could fire before the
removal can never fire again in any state reachable afterwards — handles are
fresh, so the cancelled timer is never resurrected. -/
theorem claim_C7_remove_stops_timers (d : JsNum) (ops : List SchedOp) (g : String)
    (id : ℕ) (hfire : canFire (runOps d initialState ops) id g) :
    lookupA (removeGuild (runOps d initialState ops) g).config g = none ∧
    lookupA (removeGuild (runOps d initialState ops) g).intervals g = none ∧
    liveTimersFor (removeGuild (runOps d initialState ops) g) g = [] ∧
    ∀ laterOps : List SchedOp,
      ¬ canFire (runOps d (removeGuild (runOps d initialState ops) g) laterOps) id g := by
  have hinv := schedInv_runOps d schedInv_initial ops
  set st := runOps d initialState ops with hst
  obtain ⟨hlive, hown⟩ := hfire
  have hlk : lookupA st.intervals g = some id := hinv.liveOwner id hlive g hown
  refine ⟨?_, ?_, ?_, ?_⟩
  · rw [removeGuild_eq]
    exact lookupA_eraseA_self st.config g
  · rw [removeGuild_eq]
    exact lookupA_eraseA_self st.intervals g
  · rw [removeGuild_eq]
    unfold liveTimersFor
    refine List.filter_eq_nil_iff.mpr ?_
    intro x hx hp
    have hxown : ownerOf st.timers x = some g := of_decide_eq_true hp
    have hxlk : lookupA st.intervals g = some x :=
      hinv.liveOwner x (liveAfterClear_subset st g hx) g hxown
    have hxid : x = id := by
      rw [hlk] at hxlk
      exact ((Option.some.injEq _ _).mp hxlk).symm
    subst hxid
    exact not_mem_liveAfterClear hlk hx
  · intro laterOps hcan
    have hdead : id ∉ (removeGuild st g).live := by
      rw [removeGuild_eq]
      exact not_mem_liveAfterClear hlk
    have hlt : id < (removeGuild st g).nextId := by
      rw [removeGuild_eq]
      exact hinv.liveLt id hlive
    exact dead_runOps d hdead hlt laterOps hcan.1

/-- C7 witness: schedule guild G1 (handle 0 can fire), remove it — the
config and handle are gone, no live timer remains, and even after a fresh
re-schedule the old handle 0 can never fire again. -/
theorem claim_C7_witness :
    canFire (runOps (some 120) initialState [SchedOp.schedule "G1"]) 0 "G1" ∧
    liveTimersFor
      (removeGuild (runOps (some 120) initialState [SchedOp.schedule "G1"]) "G1") "G1" = [] ∧
    ¬ canFire
      (runOps (some 120)
        (removeGuild (runOps (some 120) initialState [SchedOp.schedule "G1"]) "G1")
        [SchedOp.schedule "G1"]) 0 "G1" :=
  ⟨by decide,
   (claim_C7_remove_stops_timers (some 120) [SchedOp.schedule "G1"] "G1" 0 (by decide)).2.2.1,
   (claim_C7_remove_stops_timers (some 120) [SchedOp.schedule "G1"] "G1" 0 (by decide)).2.2.2
     [SchedOp.schedule "G1"]⟩

/-- C4 (amended): `scheduleGuild` installs a timer whose period is
`Math.max(1, Number(config[guildId]?.intervalMinutes ?? default)) * 60 * 1000`:
the default is used when the entry or the field is absent (undefined/null);
a present numeric value `q` gives exactly `max 1 q * 60000` milliseconds
(clamping to one minute); but a present NON-numeric value does not fall back
to the default — `Number` yields `NaN`, `Math.max` propagates it, and the
period passed to `setInterval` is `NaN`. -/
theorem claim_C4_schedule_period (d : JsNum) (st : SchedState) (g : String) :
    (scheduleGuild d st g).timers.head? =
      some ⟨st.nextId, g, scheduleMs (lookupA st.config g) d⟩ ∧
    (∀ c : GuildConfig, ∀ q : ℚ, lookupA st.config g = some c →
      c.intervalMinutes = some (some q) →
      scheduleMs (lookupA st.config g) d = some (max 1 q * 60000)) ∧
    (lookupA st.config g = none →
      scheduleMs (lookupA st.config g) d = jsMulNat (jsMax1 d) 60000) ∧
    (∀ c : GuildConfig, lookupA st.config g = some c → c.intervalMinutes = none →
      scheduleMs (lookupA st.config g) d = jsMulNat (jsMax1 d) 60000) ∧
    (∀ c : GuildConfig, lookupA st.config g = some c → c.intervalMinutes = some none →
      scheduleMs (lookupA st.config g) d = none) := by
  refine ⟨?_, ?_, ?_, ?_, ?_⟩
  · rw [scheduleGuild_eq]
    rfl
  · intro c q hc hq
    rw [scheduleMs_eq, hc]
    simp [effectiveMinutes, hq, jsMax1, jsMulNat]
  · intro hc
    rw [scheduleMs_eq, hc]
    rfl
  · intro c hc hq
    rw [scheduleMs_eq, hc]
    simp [effectiveMinutes, hq]
  · intro c hc hq
    rw [scheduleMs_eq, hc]
    simp [effectiveMinutes, hq, jsMax1, jsMulNat]

/-- Config entry whose `intervalMinutes` field is present but non-numeric
(its `Number(...)` image is `NaN`). -/
def c4Config : GuildConfig :=
  { channelId := "C1", intervalMinutes := some none, message := "m" }

/-- State holding only guild G1 with the non-numeric interval. -/
def c4State : SchedState :=
  { config := [("G1", c4Config)], intervals := [], timers := [], live := [], nextId := 0 }

/-- C4 counterexample: with default 120 and a present non-numeric
`intervalMinutes`, the installed period is `NaN` — not the
default-derived 7200000 ms the claim requires for a non-numeric value. -/
theorem claim_C4_counterexample :
    (scheduleGuild (some 120) c4State "G1").timers.head? = some ⟨0, "G1", none⟩ ∧
    jsMulNat (jsMax1 (some 120)) 60000 = some 7200000 ∧
    (none : JsNum) ≠ some (7200000 : ℚ) := by
  refine ⟨by decide, ?_, by decide⟩
  simp [jsMax1, jsMulNat]
  norm_num

/-- Config entry with a present numeric interval of 5 minutes. -/
def c4wConfig : GuildConfig :=
  { channelId := "C1", intervalMinutes := some (some 5), message := "m" }

/-- State holding only guild G2 with the 5-minute interval. -/
def c4wState : SchedState :=
  { config := [("G2", c4wConfig)], intervals := [], timers := [], live := [], nextId := 0 }

/-- C4 witness: a present numeric interval of 5 minutes yields exactly
`max 1 5 * 60000 = 300000` milliseconds. -/
theorem claim_C4_witness :
    scheduleMs (lookupA c4wState.config "G2") (some 120) = some (max 1 5 * 60000) ∧
    (max (1 : ℚ) 5 * 60000 = 300000) :=
  ⟨(claim_C4_schedule_period (some 120) c4wState "G2").2.1 c4wConfig 5 (by decide) rfl,
   by norm_num⟩

/-- C9: a save request whose `intervalMinutes` is 0 or non-numeric stores
`Number(intervalMinutes) || Number(DEFAULT_INTERVAL_MINUTES)`, i.e. the
process-wide default, so the re-armed timer's period is exactly the default
clamped to a minimum of one minute, times 60000 ms. -/
theorem claim_C9_save_default_interval (dq : ℚ) (st : SchedState) (g : String)
    (body : SaveBody)
    (hbad : body.intervalMinutes = some 0 ∨ body.intervalMinutes = none) :
    (saveGuild (some dq) st g body).timers.head? =
      some ⟨st.nextId, g, some (max 1 dq * 60000)⟩ := by
  unfold saveGuild
  rw [scheduleGuild_eq]
  simp only [List.head?_cons, Option.some.injEq]
  rw [lookupA_setA_self, scheduleMs_eq]
  rcases hbad with hb | hb <;>
    simp [savedConfig, effectiveMinutes, jsOrNum, jsTruthyNum, hb, jsMax1, jsMulNat]

/-- C9 witness: saving `intervalMinutes = 0` with default 120 arms a timer
with period `max 1 120 * 60000 = 7200000` ms. -/
theorem claim_C9_witness :
    (saveGuild (some 120) initialState "G1"
        { channelId := "C1", intervalMinutes := some 0, message := none }).timers.head? =
      some ⟨0, "G1", some (max 1 120 * 60000)⟩ ∧
    (max (1 : ℚ) 120 * 60000 = 7200000) :=
  ⟨claim_C9_save_default_interval 120 initialState "G1"
      { channelId := "C1", intervalMinutes := some 0, message := none } (Or.inl rfl),
   by norm_num⟩

/-! ## Claims about the tick, the manual API path, and session readiness -/

/-- C8: the timer callback `sendBump` never propagates an error — `threw` is
always `none`; it is a no-op (executor not called) when the guild has no
config entry or its configured channel is falsy; and every relay error is
caught and logged. -/
theorem claim_C8_tick_never_throws (config : List (String × GuildConfig))
    (relayResult : Except BumpErr Unit) (g : String) :
    (sendBump config relayResult g).threw = none ∧
    (lookupA config g = none →
      sendBump config relayResult g =
        { threw := none, executorCalled := false, loggedError := none }) ∧
    (∀ entry, lookupA config g = some entry → jsTruthyStr entry.channelId = false →
      sendBump config relayResult g =
        { threw := none, executorCalled := false, loggedError := none }) ∧
    (∀ e, relayResult = .error e → ∀ entry, lookupA config g = some entry →
      jsTruthyStr entry.channelId = true →
      sendBump config relayResult g =
        { threw := none, executorCalled := true, loggedError := some e }) := by
  refine ⟨?_, ?_, ?_, ?_⟩
  · unfold sendBump
    cases sendBumpBody config relayResult g <;> rfl
  · intro h
    simp [sendBump, sendBumpBody, h]
  · intro entry h hch
    simp [sendBump, sendBumpBody, h, hch]
  · intro e he entry h hch
    simp [sendBump, sendBumpBody, h, hch, he]

/-- Config store with one guild whose channel is configured. -/
def c8Config : List (String × GuildConfig) :=
  [("G1", { channelId := "C1", intervalMinutes := some (some 5), message := "m" })]

/-- C8 witness: an unconfigured guild's tick is a silent no-op, and a
configured guild's failing relay is caught and logged, never thrown. -/
theorem claim_C8_witness :
    sendBump [] (Except.error BumpErr.sessionPending) "G1" =
      { threw := none, executorCalled := false, loggedError := none } ∧
    sendBump c8Config (Except.error BumpErr.sessionPending) "G1" =
      { threw := none, executorCalled := true, loggedError := some BumpErr.sessionPending } :=
  ⟨(claim_C8_tick_never_throws [] (Except.error BumpErr.sessionPending) "G1").2.1 rfl,
   (claim_C8_tick_never_throws c8Config (Except.error BumpErr.sessionPending) "G1").2.2.2
     BumpErr.sessionPending rfl
     { channelId := "C1", intervalMinutes := some (some 5), message := "m" }
     (by decide) (by decide)⟩

/-- C3 (amended): the manual API path classifies a failed relay solely by
the case-insensitive cooldown / please-wait pattern on the error message
(`rawError.message`, else `message`): a match is answered HTTP 200 with
`ok:false, cooldown:true`, any other failure HTTP 500 with
`ok:false, cooldown:false`; the error's HTTP status — 429 included — is
never consulted. -/
theorem claim_C3_cooldown_classification (config : List (String × GuildConfig))
    (body : BumpRequestBody) (e : JsError)
    (hg : jsTruthyStr (body.guildId.getD "") = true)
    (hch : jsTruthyStr (effectiveChannelId config body) = true) :
    postApiBump config body (.error e) =
      .failResp { httpStatus := if apiBumpIsCooldown e then 200 else 500
                , ok := false, cooldown := apiBumpIsCooldown e } ∧
    (∀ st' : Option ℕ, apiBumpFailure { e with status := st' } = apiBumpFailure e) := by
  constructor
  · simp [postApiBump, hg, hch, apiBumpFailure]
  · intro st'
    rfl

/-- Config store for the C3 scenarios. -/
def c3Config : List (String × GuildConfig) :=
  [("G1", { channelId := "C1", intervalMinutes := some (some 5), message := "m" })]

/-- Request body naming guild G1 with no explicit channel. -/
def c3Body : BumpRequestBody := { guildId := some "G1", channelId := none }

/-- An error carrying HTTP status 429 whose message lacks the
cooldown/please-wait pattern. -/
def c3Error : JsError :=
  { status := some 429, message := "Rate limited.", rawErrorMessage := none }

/-- C3 counterexample: a failed relay whose error carries HTTP status 429
but whose message lacks the cooldown/please-wait pattern is answered
HTTP 500 with cooldown:false — the claim requires HTTP 200 with
cooldown:true for every 429. -/
theorem claim_C3_counterexample :
    c3Error.status = some 429 ∧
    postApiBump c3Config c3Body (.error c3Error) =
      .failResp { httpStatus := 500, ok := false, cooldown := false } := by
  refine ⟨rfl, ?_⟩
  decide

/-- A cooldown-style platform rejection (the spec's example body). -/
def c3CooldownError : JsError :=
  { status := some 429, message := ""
  , rawErrorMessage := some "You are on cooldown, please wait." }

/-- C3 witness: a message matching the pattern is answered HTTP 200 with
ok:false, cooldown:true. -/
theorem claim_C3_witness :
    postApiBump c3Config c3Body (.error c3CooldownError) =
      .failResp { httpStatus := 200, ok := false, cooldown := true } := by
  have h := (claim_C3_cooldown_classification c3Config c3Body c3CooldownError
    (by decide) (by decide)).1
  rw [h]
  decide

/-- C5: a relay attempted before any gateway session is established (no
latest id, no shard id, client not yet ready) does not immediately fail:
provided the ready event eventually fires and some `markSessionReady` call
eventually carries a session id, `ensureGatewaySession` resolves to the
first such id — the single-resolution promise — and `executeExternalBump`
proceeds past the session stage instead of failing with a session error. -/
theorem claim_C5_session_race (gw : GatewayEnv) (cache : CommandCache) (env : RestEnv)
    (postResult : Except JsError Unit) (g ch target sid : String)
    (hnolatest : gw.latestSessionId = none) (hnoshard : gw.shardSessionId = none)
    (hnotready : gw.isReady = false) (hready : gw.readyFires = true)
    (hevent : gw.sessionEvents.findSome? (fun x => x) = some sid) :
    ensureGatewaySession gw = .ok sid ∧
    (executeExternalBump cache gw env postResult g ch target).result ≠
      .error .sessionPending := by
  have h1 : ensureGatewaySession gw = .ok sid := by
    simp [ensureGatewaySession, hnolatest, hnoshard, hnotready, hready, hevent]
  refine ⟨h1, ?_⟩
  cases hf : (fetchExternalBumpCommand cache env g target).result with
  | error e =>
    simp [executeExternalBump, h1, hf]
  | ok c =>
    cases postResult <;> simp [executeExternalBump, h1, hf]

/-- A startup-race environment: client not ready yet, no session anywhere,
but the ready event fires and a later `markSessionReady(null)` is skipped
before one carrying "sess-1" resolves the promise. -/
def c5Gw : GatewayEnv :=
  { isReady := false, readyFires := true, latestSessionId := none
  , shardSessionId := none, sessionEvents := [none, some "sess-1"] }

/-- C5 witness: in the concrete race environment the session resolves to
"sess-1" and the relay does not fail with a session error. -/
theorem claim_C5_witness :
    ensureGatewaySession c5Gw = .ok "sess-1" ∧
    (executeExternalBump []
        c5Gw
        { guildScoped := { restResult := .ok [], rawResult := none }
        , globalScoped := { restResult := .ok [], rawResult := none } }
        (Except.ok ()) "G1" "C1" "bump").result ≠ .error .sessionPending :=
  claim_C5_session_race c5Gw []
    { guildScoped := { restResult := .ok [], rawResult := none }
    , globalScoped := { restResult := .ok [], rawResult := none } }
    (Except.ok ()) "G1" "C1" "bump" "sess-1" rfl rfl rfl rfl rfl

/-! ## Resolver cache lemmas -/

theorem finishFetch_queried (cache : CommandCache) (g target : String)
    (cs : List Command) (qs : List Scope) :
    (finishFetch cache g target cs qs).queried = qs := by
  unfold finishFetch
  cases cs.find? (nameMatches target) <;> rfl

theorem finishFetch_result (cache : CommandCache) (g target : String)
    (cs : List Command) (qs : List Scope) :
    (finishFetch cache g target cs qs).result =
      (match cs.find? (nameMatches target) with
       | some c => .ok c
       | none => .error .commandNotFound) := by
  unfold finishFetch
  cases cs.find? (nameMatches target) <;> rfl

theorem finishFetch_ok_cached {cache : CommandCache} {g target : String}
    {cs : List Command} {qs : List Scope} {c : Command}
    (h : (finishFetch cache g target cs qs).result = .ok c) :
    lookupA (finishFetch cache g target cs qs).cache g = some c := by
  rw [finishFetch_result] at h
  unfold finishFetch
  cases hf : cs.find? (nameMatches target) with
  | none =>
    rw [hf] at h
    simp at h
  | some c1 =>
    rw [hf] at h
    simp at h
    simp [lookupA_setA_self, h]

theorem finishFetch_err_cache {cache : CommandCache} {g target : String}
    {cs : List Command} {qs : List Scope} {e : FetchErr}
    (h : (finishFetch cache g target cs qs).result = .error e) :
    (finishFetch cache g target cs qs).cache = cache := by
  rw [finishFetch_result] at h
  unfold finishFetch
  cases hf : cs.find? (nameMatches target) with
  | none => rfl
  | some c1 =>
    rw [hf] at h
    simp at h

theorem finishFetch_cache_mono {cache : CommandCache} {g target : String}
    {cs : List Command} {qs : List Scope} {g' : String} {c' : Command}
    (hne : g ≠ g') (h : lookupA cache g' = some c') :
    lookupA (finishFetch cache g target cs qs).cache g' = some c' := by
  unfold finishFetch
  cases cs.find? (nameMatches target) <;>
    simp [lookupA_setA_ne _ _ _ _ hne, h]

theorem fetch_on_hit {cache : CommandCache} {env : RestEnv} {g target : String}
    {c : Command} (h : lookupA cache g = some c) :
    fetchExternalBumpCommand cache env g target =
      { result := .ok c, cache := cache, queried := [] } := by
  unfold fetchExternalBumpCommand
  rw [h]

theorem fetch_on_miss {cache : CommandCache} {env : RestEnv} {g target : String}
    (h : lookupA cache g = none) :
    fetchExternalBumpCommand cache env g target =
      (match tryGet env.guildScoped with
       | .error st =>
           { result := .error (.restFailure st), cache := cache, queried := [.guildScoped] }
       | .ok cs0 =>
         if cs0.isEmpty then
           match tryGet env.globalScoped with
           | .error st =>
               { result := .error (.restFailure st), cache := cache
               , queried := [.guildScoped, .globalScoped] }
           | .ok cs1 => finishFetch cache g target cs1 [.guildScoped, .globalScoped]
         else finishFetch cache g target cs0 [.guildScoped]) := by
  unfold fetchExternalBumpCommand
  rw [h]

theorem fetch_ok_cached {cache : CommandCache} {env : RestEnv} {g target : String}
    {c : Command} (hok : (fetchExternalBumpCommand cache env g target).result = .ok c) :
    lookupA (fetchExternalBumpCommand cache env g target).cache g = some c := by
  cases hc : lookupA cache g with
  | some c0 =>
    rw [fetch_on_hit hc] at hok ⊢
    simp at hok ⊢
    rw [hc, hok]
  | none =>
    rw [fetch_on_miss hc] at hok ⊢
    cases ht : tryGet env.guildScoped with
    | error st =>
      rw [ht] at hok
      simp at hok
    | ok cs0 =>
      rw [ht] at hok
      dsimp only at hok ⊢
      cases he : cs0.isEmpty with
      | true =>
        rw [if_pos he] at hok
        rw [if_pos rfl]
        cases htg : tryGet env.globalScoped with
        | error st =>
          rw [htg] at hok
          simp at hok
        | ok cs1 =>
          rw [htg] at hok
          dsimp only at hok ⊢
          exact finishFetch_ok_cached hok
      | false =>
        have hne : ¬(cs0.isEmpty = true) := by simp [he]
        rw [if_neg hne] at hok
        rw [if_neg Bool.false_ne_true]
        exact finishFetch_ok_cached hok

theorem fetch_cache_mono (cache : CommandCache) (env : RestEnv) (g target : String)
    {g' : String} {c' : Command} (h : lookupA cache g' = some c') :
    lookupA (fetchExternalBumpCommand cache env g target).cache g' = some c' := by
  cases hc : lookupA cache g with
  | some c0 => rw [fetch_on_hit hc]; exact h
  | none =>
    have hne : g ≠ g' := by
      intro e
      rw [e, h] at hc
      cases hc
    rw [fetch_on_miss hc]
    cases ht : tryGet env.guildScoped with
    | error st => exact h
    | ok cs0 =>
      dsimp only
      cases he : cs0.isEmpty with
      | true =>
        rw [if_pos rfl]
        cases htg : tryGet env.globalScoped with
        | error st => exact h
        | ok cs1 =>
          dsimp only
          exact finishFetch_cache_mono hne h
      | false =>
        rw [if_neg Bool.false_ne_true]
        exact finishFetch_cache_mono hne h

theorem runFetches_mono (target : String) {g' : String} {c' : Command} :
    ∀ (calls : List (RestEnv × String)) (cache : CommandCache),
      lookupA cache g' = some c' →
      lookupA (runFetches cache target calls) g' = some c'
  | [], _, h => h
  | (env, g) :: rest, cache, h =>
      runFetches_mono target rest _ (fetch_cache_mono cache env g target h)

/-! ## Claims about the resolver -/

/-- C6: once a resolver call for a guild has succeeded, the descriptor is in
the cache; a second call for the same guild — whatever the network would
answer — returns the identical cached descriptor, leaves the cache
untouched and issues no network query; and across every further sequence of
resolver calls (the only operations the program performs on the cache) the
entry is never invalidated or refreshed. -/
theorem claim_C6_cache_permanence (cache : CommandCache) (env env' : RestEnv)
    (g target : String) (c : Command)
    (hok : (fetchExternalBumpCommand cache env g target).result = .ok c) :
    fetchExternalBumpCommand (fetchExternalBumpCommand cache env g target).cache env' g target =
      { result := .ok c
      , cache := (fetchExternalBumpCommand cache env g target).cache
      , queried := [] } ∧
    ∀ calls : List (RestEnv × String),
      lookupA (runFetches (fetchExternalBumpCommand cache env g target).cache target calls) g =
        some c := by
  have hcached := fetch_ok_cached hok
  exact ⟨fetch_on_hit hcached, fun calls => runFetches_mono target calls _ hcached⟩

/-- A "bump" descriptor used in the concrete scenarios. -/
def cmdBump : Command := { id := "222", type := 1, name := "Bump", version := "1" }

/-- A non-matching descriptor used in the concrete scenarios. -/
def cmdOther : Command := { id := "111", type := 1, name := "other", version := "1" }

/-- Environment whose guild-scoped query returns the matching command. -/
def c6Env : RestEnv :=
  { guildScoped := { restResult := .ok [cmdBump], rawResult := none }
  , globalScoped := { restResult := .ok [], rawResult := none } }

/-- Environment in which every query would fail (server error 500). -/
def failEnv : RestEnv :=
  { guildScoped := { restResult := .error (some 500), rawResult := none }
  , globalScoped := { restResult := .error (some 500), rawResult := none } }

/-- C6 witness: after one successful resolution (case-insensitive match of
"Bump"), a second call returns the identical descriptor with no queries even
though every network query would now fail, and the entry survives a further
failing call. -/
theorem claim_C6_witness :
    (fetchExternalBumpCommand [] c6Env "G1" "bump").result = .ok cmdBump ∧
    fetchExternalBumpCommand (fetchExternalBumpCommand [] c6Env "G1" "bump").cache
        failEnv "G1" "bump" =
      { result := .ok cmdBump
      , cache := (fetchExternalBumpCommand [] c6Env "G1" "bump").cache
      , queried := [] } ∧
    lookupA (runFetches (fetchExternalBumpCommand [] c6Env "G1" "bump").cache "bump"
        [(failEnv, "G1")]) "G1" = some cmdBump :=
  ⟨rfl,
   (claim_C6_cache_permanence [] c6Env failEnv "G1" "bump" cmdBump rfl).1,
   (claim_C6_cache_permanence [] c6Env failEnv "G1" "bump" cmdBump rfl).2 [(failEnv, "G1")]⟩

/-- C10: a failed resolver call writes nothing to the command cache — on a
cache miss that ends in any error the cache is returned unchanged, the guild
still has no entry, and the next call for that guild performs fresh network
queries (the guild scope is contacted again). -/
theorem claim_C10_failure_not_cached (cache : CommandCache) (env : RestEnv)
    (g target : String) (e : FetchErr) (hmiss : lookupA cache g = none)
    (herr : (fetchExternalBumpCommand cache env g target).result = .error e) :
    (fetchExternalBumpCommand cache env g target).cache = cache ∧
    lookupA (fetchExternalBumpCommand cache env g target).cache g = none ∧
    ∀ env' : RestEnv,
      Scope.guildScoped ∈
        (fetchExternalBumpCommand (fetchExternalBumpCommand cache env g target).cache
          env' g target).queried := by
  have hcache : (fetchExternalBumpCommand cache env g target).cache = cache := by
    rw [fetch_on_miss hmiss] at herr ⊢
    cases ht : tryGet env.guildScoped with
    | error st => rfl
    | ok cs0 =>
      rw [ht] at herr
      dsimp only at herr ⊢
      cases he : cs0.isEmpty with
      | true =>
        rw [if_pos he] at herr
        rw [if_pos rfl]
        cases htg : tryGet env.globalScoped with
        | error st => rfl
        | ok cs1 =>
          rw [htg] at herr
          dsimp only at herr ⊢
          exact finishFetch_err_cache herr
      | false =>
        have hne : ¬(cs0.isEmpty = true) := by simp [he]
        rw [if_neg hne] at herr
        rw [if_neg Bool.false_ne_true]
        exact finishFetch_err_cache herr
  have hstill : lookupA (fetchExternalBumpCommand cache env g target).cache g = none := by
    rw [hcache]
    exact hmiss
  refine ⟨hcache, hstill, ?_⟩
  intro env'
  rw [hcache]
  rw [fetch_on_miss hmiss]
  cases ht : tryGet env'.guildScoped with
  | error st => simp
  | ok cs0 =>
    dsimp only
    cases he : cs0.isEmpty with
    | true =>
      rw [if_pos rfl]
      cases htg : tryGet env'.globalScoped with
      | error st => simp
      | ok cs1 =>
        dsimp only
        rw [finishFetch_queried]
        simp
    | false =>
      rw [if_neg Bool.false_ne_true]
      rw [finishFetch_queried]
      simp

/-- Environment in which both scopes answer with an empty command list. -/
def c10Env : RestEnv :=
  { guildScoped := { restResult := .ok [], rawResult := none }
  , globalScoped := { restResult := .ok [], rawResult := none } }

/-- C10 witness: a not-found failure leaves the cache empty and the next
call contacts the guild scope again. -/
theorem claim_C10_witness :
    (fetchExternalBumpCommand [] c10Env "G1" "bump").result =
      .error .commandNotFound ∧
    (fetchExternalBumpCommand [] c10Env "G1" "bump").cache = ([] : CommandCache) ∧
    Scope.guildScoped ∈
      (fetchExternalBumpCommand (fetchExternalBumpCommand [] c10Env "G1" "bump").cache
        c10Env "G1" "bump").queried :=
  ⟨rfl,
   (claim_C10_failure_not_cached [] c10Env "G1" "bump" .commandNotFound rfl rfl).1,
   (claim_C10_failure_not_cached [] c10Env "G1" "bump" .commandNotFound rfl rfl).2.2 c10Env⟩

/-- C2 (amended): on a cache miss the resolver queries the guild scope
first; it falls back to the global scope exactly when the guild-scoped query
produced an EMPTY list (a non-empty guild list that merely lacks a matching
name does NOT trigger the fallback); name matching is case-insensitive; the
consulted list without a match yields the command-not-found failure; and a
relay whose command resolution failed never contacts the interaction
endpoint. -/
theorem claim_C2_resolver_fallback (cache : CommandCache) (env : RestEnv)
    (g target : String) (hmiss : lookupA cache g = none) :
    (fetchExternalBumpCommand cache env g target).queried.head? = some .guildScoped ∧
    (Scope.globalScoped ∈ (fetchExternalBumpCommand cache env g target).queried ↔
      tryGet env.guildScoped = .ok []) ∧
    (∀ cs : List Command, tryGet env.guildScoped = .ok cs → cs ≠ [] →
      (fetchExternalBumpCommand cache env g target).result =
        (match cs.find? (nameMatches target) with
         | some c => .ok c
         | none => .error .commandNotFound)) ∧
    (∀ cs : List Command, tryGet env.guildScoped = .ok [] →
      tryGet env.globalScoped = .ok cs →
      (fetchExternalBumpCommand cache env g target).result =
        (match cs.find? (nameMatches target) with
         | some c => .ok c
         | none => .error .commandNotFound)) ∧
    (∀ e : FetchErr, ∀ gw : GatewayEnv, ∀ postResult : Except JsError Unit, ∀ ch : String,
      (fetchExternalBumpCommand cache env g target).result = .error e →
      (executeExternalBump cache gw env postResult g ch target).contactedInteractions =
        false) := by
  refine ⟨?_, ?_, ?_, ?_, ?_⟩
  · rw [fetch_on_miss hmiss]
    cases ht : tryGet env.guildScoped with
    | error st => rfl
    | ok cs0 =>
      dsimp only
      cases he : cs0.isEmpty with
      | true =>
        rw [if_pos rfl]
        cases htg : tryGet env.globalScoped with
        | error st => rfl
        | ok cs1 =>
          dsimp only
          rw [finishFetch_queried]
          rfl
      | false =>
        rw [if_neg Bool.false_ne_true]
        rw [finishFetch_queried]
        rfl
  · rw [fetch_on_miss hmiss]
    cases ht : tryGet env.guildScoped with
    | error st =>
      dsimp only
      constructor
      · intro hmem
        exact absurd hmem (by decide)
      · intro hcontra
        cases hcontra
    | ok cs0 =>
      dsimp only
      cases he : cs0.isEmpty with
      | true =>
        have hnil : cs0 = [] := List.isEmpty_iff.mp he
        subst hnil
        rw [if_pos rfl]
        constructor
        · intro _
          rfl
        · intro _
          cases htg : tryGet env.globalScoped with
          | error st => simp
          | ok cs1 =>
            dsimp only
            rw [finishFetch_queried]
            simp
      | false =>
        rw [if_neg Bool.false_ne_true]
        rw [finishFetch_queried]
        constructor
        · intro hmem
          exact absurd hmem (by decide)
        · intro hok
          have hnil : cs0 = [] := by
            simpa using hok
          rw [hnil] at he
          simp at he
  · intro cs hcs hne
    rw [fetch_on_miss hmiss, hcs]
    dsimp only
    have he : cs.isEmpty = false := by
      cases cs with
      | nil => exact absurd rfl hne
      | cons a t => rfl
    rw [he, if_neg Bool.false_ne_true]
    exact finishFetch_result cache g target cs [.guildScoped]
  · intro cs hg hglob
    rw [fetch_on_miss hmiss, hg]
    dsimp only
    rw [show ([] : List Command).isEmpty = true from rfl, if_pos rfl, hglob]
    dsimp only
    exact finishFetch_result cache g target cs [.guildScoped, .globalScoped]
  · intro e gw postResult ch herr
    unfold executeExternalBump
    cases ensureGatewaySession gw with
    | pending => rfl
    | ok sid =>
      dsimp only
      rw [herr]

/-- Environment in which the guild scope has a non-matching command while
the global scope has the matching one. -/
def c2Env : RestEnv :=
  { guildScoped := { restResult := .ok [cmdOther], rawResult := none }
  , globalScoped := { restResult := .ok [cmdBump], rawResult := none } }

/-- C2 counterexample: the guild scope returns a non-empty list with no
command named "bump" while the global scope does have one; the claim says
the resolver falls back to the global scope and succeeds, but the code fails
with command-not-found and never queries the global scope. -/
theorem claim_C2_counterexample :
    tryGet c2Env.globalScoped = .ok [cmdBump] ∧
    nameMatches "bump" cmdBump = true ∧
    (fetchExternalBumpCommand [] c2Env "G1" "bump").result =
      .error .commandNotFound ∧
    Scope.globalScoped ∉ (fetchExternalBumpCommand [] c2Env "G1" "bump").queried := by
  refine ⟨rfl, by decide, rfl, by decide⟩

/-- Environment in which the guild scope is empty and the global scope has
the matching command. -/
def c2wEnv : RestEnv :=
  { guildScoped := { restResult := .ok [], rawResult := none }
  , globalScoped := { restResult := .ok [cmdBump], rawResult := none } }

/-- C2 witness: with an empty guild-scoped list the resolver falls back to
the global scope and finds "Bump" case-insensitively. -/
theorem claim_C2_witness :
    lookupA ([] : CommandCache) "G1" = none ∧
    (fetchExternalBumpCommand [] c2wEnv "G1" "bump").result = .ok cmdBump := by
  refine ⟨rfl, ?_⟩
  have h := (claim_C2_resolver_fallback [] c2wEnv "G1" "bump" rfl).2.2.2.1 [cmdBump] rfl rfl
  rw [h]
  rfl

end AutoBumper
